import Mathlib

/-!
Verification development for the homework-app backend (src/api/index.py,
src/main.py): a shallow embedding of the request handlers, the prompt
compiler and the upstream-response validator, with theorems checking the
specification's claims about them.

JSON values are embedded as an inductive type; Python dicts whose iteration
order is never observed by the code are embedded as association lists with
first-match lookup; machine integers are Lean Int (Python ints are
unbounded, so no modular wrap is needed); fallible code paths return
Option, and an uncaught Python exception is a distinguished handler result.
-/

/-- A JSON value as handled by the Flask handlers.  Numbers are modelled as
integers (the handlers only ever count and compare; no float arithmetic
occurs on any claim-relevant path). -/
inductive Json where
  | null : Json
  | bool (b : Bool) : Json
  | num (n : Int) : Json
  | str (s : String) : Json
  | arr (l : List Json) : Json
  | obj (l : List (String × Json)) : Json

/-- A JSON object body, i.e. a Python dict from string keys to values.  The
handlers never observe the iteration order of the dicts they build (output
always iterates fixed lists such as `ordered_subjects`), so an association
list with first-match lookup is a faithful model of lookup, update and
`setdefault`. -/
abbrev Dict := List (String × Json)

/-- Python `d.get(k)`: the first binding of `k`, if any. -/
def alistGet {α : Type} (d : List (String × α)) (k : String) : Option α :=
  (d.find? (fun p => p.1 == k)).map (fun p => p.2)

/-- Python `d[k] = v` for a dict whose iteration order is never observed:
prepend, so that first-match lookup sees the new value. -/
def dictSet {α : Type} (d : List (String × α)) (k : String) (v : α) :
    List (String × α) :=
  (k, v) :: d

/-- Python `d.setdefault(k, v)`: insert only when `k` is absent. -/
def dictSetdefault {α : Type} (d : List (String × α)) (k : String) (v : α) :
    List (String × α) :=
  match alistGet d k with
  | some _ => d
  | none => (k, v) :: d

/-- Python truthiness of a JSON value (`bool(v)`): `None`, `False`, `0`, the
empty string, the empty list and the empty dict are falsy. -/
def pyTruthy : Json → Bool
  | .null => false
  | .bool b => b
  | .num n => n != 0
  | .str s => !s.data.isEmpty
  | .arr l => !l.isEmpty
  | .obj l => !l.isEmpty

/-- Truthiness of `data.get(k)` (an absent key is `None`, hence falsy). -/
def truthyGet (d : Dict) (k : String) : Bool :=
  pyTruthy ((alistGet d k).getD .null)

/-- Python `str.join`: `strJoin sep [a, b, c] = a ++ sep ++ b ++ sep ++ c`. -/
def strJoin (sep : String) : List String → String
  | [] => ""
  | [x] => x
  | x :: y :: xs => x ++ sep ++ strJoin sep (y :: xs)

mutual
/-- Python `str(v)` for a JSON value as interpolated into an f-string.
Scalars render as Python renders them; containers render their elements via
`repr` as Python does (string escaping inside `repr` is elided: no claim
inspects rendered container text). -/
def pyStr : Json → String
  | .null => "None"
  | .bool b => if b then "True" else "False"
  | .num n => toString n
  | .str s => s
  | .arr l => "[" ++ strJoin ", " (pyReprList l) ++ "]"
  | .obj l => "\x7b" ++ strJoin ", " (pyReprPairs l) ++ "\x7d"

/-- Python `repr(v)` (strings gain quotes; other values as `str`). -/
def pyRepr : Json → String
  | .str s => "'" ++ s ++ "'"
  | .null => "None"
  | .bool b => if b then "True" else "False"
  | .num n => toString n
  | .arr l => "[" ++ strJoin ", " (pyReprList l) ++ "]"
  | .obj l => "\x7b" ++ strJoin ", " (pyReprPairs l) ++ "\x7d"

def pyReprList : List Json → List String
  | [] => []
  | j :: js => pyRepr j :: pyReprList js

def pyReprPairs : List (String × Json) → List String
  | [] => []
  | p :: ps => ("'" ++ p.1 ++ "': " ++ pyRepr p.2) :: pyReprPairs ps
end

/-- Python `v == "s"` for a JSON value fetched with `.get` (true only when
the value is that exact string). -/
def jsonEqStr : Option Json → String → Bool
  | some (.str t), s => t == s
  | _, _ => false

/-- Python `v in {s1, ..., sn}` for a fetched JSON value against a set of
string literals. -/
def jsonStrIn (v : Option Json) (l : List String) : Bool :=
  match v with
  | some (.str t) => l.contains t
  | _ => false

/-- Digits of a decimal literal to a number; `none` when a non-digit occurs. -/
def digitsVal : List Char → Nat → Option Nat
  | [], acc => some acc
  | c :: rest, acc =>
      if c.isDigit then digitsVal rest (acc * 10 + (c.toNat - 48)) else none

/-- Python `str.strip()` at the character-list level (leading and trailing
whitespace removed). -/
def pyStripL (l : List Char) : List Char :=
  ((l.dropWhile Char.isWhitespace).reverse.dropWhile Char.isWhitespace).reverse

/-- Python `int(s)` on a string: optional surrounding whitespace, optional
sign, then decimal digits; anything else raises `ValueError` (`none`).
(Underscore digit grouping, an int-literal nicety, is not modelled.) -/
def parsePyInt (s : String) : Option Int :=
  match pyStripL s.data with
  | [] => none
  | '+' :: rest =>
      match rest with
      | [] => none
      | _ => (digitsVal rest 0).map (fun n => (n : Int))
  | '-' :: rest =>
      match rest with
      | [] => none
      | _ => (digitsVal rest 0).map (fun n => -(n : Int))
  | l => (digitsVal l 0).map (fun n => (n : Int))

/-- Python `int(v)` on a JSON value: ints pass through, booleans coerce
(`int(True) = 1`), strings parse as integer literals, anything else raises
(`TypeError`), yielding `none`. -/
def pyInt : Json → Option Int
  | .num n => some n
  | .bool b => some (if b then 1 else 0)
  | .str s => parsePyInt s
  | _ => none

/-- The `generationConfig` payload a handler passes to `call_gemini_api`. -/
structure GenConfig where
  responseMimeType : String
  responseSchema : Json

/-- Result of one task handler from src/api/index.py: a 400-style client
error built with `_json_error`, a call into `call_gemini_api` with the
compiled prompt and optional generation config, or an uncaught exception
(Python would let it propagate to the framework). -/
inductive HandlerResult where
  | clientError (message : String) (status : Nat) : HandlerResult
  | upstream (prompt : String) (config : Option GenConfig) : HandlerResult
  | crash : HandlerResult

/-! ### generate-quiz (src/api/index.py, `_handle_generate_quiz`, lines 97-177) -/

/-- The fixed MCQ-eligible English topic set (line 108). -/
def english_mcq_topics : List String :=
  ["Vocab MCQ", "Grammar MCQ", "Grammar Cloze", "Comprehension Cloze"]

/-- The fixed English comprehension topic set (line 109). -/
def comprehension_topics : List String :=
  ["Comprehension (Open-Ended)"]

/-- The required quiz fields (line 98). -/
def requiredQuizFields : List String :=
  ["classLevel", "subject", "topic", "difficulty"]

/-- Lines 103: `[field for field in required_fields if field not in data or
not data[field]]`. -/
def missingFields (d : Dict) : List String :=
  requiredQuizFields.filter (fun f => !truthyGet d f)

/-- Rendering of `data[k]` inside an f-string (the handler only reaches
these interpolations after validation ensured the key is present). -/
def fieldStr (d : Dict) (k : String) : String :=
  pyStr ((alistGet d k).getD .null)

/-- Branch condition of line 111: `data.get('subject') == 'English' and
data.get('topic') in english_mcq_topics`. -/
def isEnglishMcq (d : Dict) : Bool :=
  jsonEqStr (alistGet d "subject") "English" &&
    jsonStrIn (alistGet d "topic") english_mcq_topics

/-- The all-MCQ base prompt (lines 112-119). -/
def quizMcqPrompt (classLevel subject topic difficulty : String) : String :=
  "Act as a Primary School teacher in Singapore. " ++
  "Generate a quiz with exactly 5 'single-choice' multiple-choice questions for a " ++
  classLevel ++ " student. " ++
  "The subject is " ++ subject ++ " and the specific topic is " ++ topic ++ ". " ++
  "The difficulty level should be " ++ difficulty ++ ". " ++
  "Each question must have four options with exactly one correct answer. " ++
  "Ensure the questions are aligned with the Singapore MOE syllabus. "

/-- The mixed-format base prompt (lines 121-131). -/
def quizMixedPrompt (classLevel subject topic difficulty : String) : String :=
  "Act as a Primary School teacher in Singapore. " ++
  "Generate a quiz with exactly 5 questions for a " ++ classLevel ++ " student. " ++
  "The subject is " ++ subject ++ " and the specific topic is " ++ topic ++ ". " ++
  "The difficulty level should be " ++ difficulty ++ ". " ++
  "The quiz must have this structure: " ++
  "1. Two 'single-choice' questions (select one correct answer from 4 options). " ++
  "2. One 'multi-select' question (select one or more correct answers from 4 options). " ++
  "3. Two 'free-text' questions (open-ended questions requiring a written answer). " ++
  "Ensure the questions are aligned with the Singapore MOE syllabus. "

/-- Lines 111-131: the base prompt, chosen by `isEnglishMcq`. -/
def quizBasePrompt (d : Dict) : String :=
  if isEnglishMcq d then
    quizMcqPrompt (fieldStr d "classLevel") (fieldStr d "subject")
      (fieldStr d "topic") (fieldStr d "difficulty")
  else
    quizMixedPrompt (fieldStr d "classLevel") (fieldStr d "subject")
      (fieldStr d "topic") (fieldStr d "difficulty")

/-- Lines 133-134: template guidance, appended only for English with a
truthy template. -/
def quizTemplateSection (d : Dict) : String :=
  if jsonEqStr (alistGet d "subject") "English" && truthyGet d "template" then
    "\nUse the following question template for formatting:\n" ++
      pyStr ((alistGet d "template").getD .null)
  else ""

/-- Lines 136-137: shared-image instruction for English comprehension. -/
def quizImageSection (d : Dict) : String :=
  if jsonEqStr (alistGet d "subject") "English" &&
      jsonStrIn (alistGet d "topic") comprehension_topics then
    "\nAll five questions must be based on the same image. Include an 'image' field with the same URL for each question."
  else ""

/-- Line 140: `data.get('previous_questions', [])`.  The field is modelled
as a JSON array when present (a truthy non-list value would make Python
iterate its elements oddly; no claim concerns that shape). -/
def getPrevQuestions (d : Dict) : List Json :=
  match alistGet d "previous_questions" with
  | some (.arr l) => l
  | _ => []

/-- Line 142: `"\n".join([f"- {q}" for q in previous_questions])`. -/
def dedupLines (prev : List Json) : String :=
  strJoin "\n" (prev.map (fun q => "- " ++ pyStr q))

/-- Lines 141-147: the de-duplication instruction, empty when no history. -/
def quizDedupSection (prev : List Json) : String :=
  if prev.isEmpty then ""
  else
    "\nIMPORTANT: To ensure variety, do not generate any of the following questions that the student has already answered for this topic:\n" ++
    dedupLines prev ++
    "\nAlso, try to create questions with different patterns and structures than the ones listed above."

/-- Lines 150-154: the final JSON formatting instruction. -/
def quizJsonInstruction : String :=
  "\nReturn a single JSON object with a key 'questions', which is an array of 5 question objects. " ++
  "Each question object must have: a 'type' (string: 'single-choice', 'multi-select', or 'free-text'), " ++
  "a 'question' (string), and for choice questions, an 'options' array of 4 strings."

/-- The full compiled generate-quiz prompt (lines 107-154). -/
def buildQuizPrompt (d : Dict) : String :=
  quizBasePrompt d ++ quizTemplateSection d ++ quizImageSection d ++
    quizDedupSection (getPrevQuestions d) ++ quizJsonInstruction

/-- Lines 156-176: the generate-quiz `generation_config`. -/
def quizGenConfig : GenConfig where
  responseMimeType := "application/json"
  responseSchema := .obj
    [("type", .str "OBJECT"),
     ("properties", .obj
       [("questions", .obj
         [("type", .str "ARRAY"),
          ("items", .obj
            [("type", .str "OBJECT"),
             ("properties", .obj
               [("type", .obj [("type", .str "STRING")]),
                ("question", .obj [("type", .str "STRING")]),
                ("options", .obj
                  [("type", .str "ARRAY"),
                   ("items", .obj [("type", .str "STRING")])]),
                ("image", .obj [("type", .str "STRING")])]),
             ("required", .arr [.str "type", .str "question"])])])])]

/-- `_handle_generate_quiz` (lines 97-177), up to its `call_gemini_api`
call.  `none` stands for a body on which `request.get_json` yields Python
`None` (an unparseable or JSON-null body); like the empty dict it is falsy,
so line 100 answers "Request body must be JSON.".  Truthy bodies that are
not JSON objects are outside this model: for a JSON array or string Python
would run the `field not in data` membership tests of line 103 against the
sequence (an `["x"]` body gets the missing-fields error naming all four
fields), and a numeric or boolean body would raise an uncaught TypeError
there; no claim concerns those shapes. -/
def handle_generate_quiz (od : Option Dict) : HandlerResult :=
  match od with
  | none => .clientError "Request body must be JSON." 400
  | some d =>
    if d.isEmpty then .clientError "Request body must be JSON." 400
    else
      let missing := missingFields d
      if !missing.isEmpty then
        .clientError ("Missing or empty required fields: " ++ strJoin ", " missing) 400
      else
        .upstream (buildQuizPrompt d) (some quizGenConfig)

/-! ### generate-question-paper (src/api/index.py, `_handle_question_paper`,
lines 180-243) -/

/-- The question-paper base prompt (lines 198-205). -/
def paperPromptBase (questionCount : Int) (classLevel subject : String) : String :=
  "Act as a Primary School teacher in Singapore. " ++
  "Create a question paper with exactly " ++ toString questionCount ++
  " questions for a " ++ classLevel ++ " student. " ++
  "The subject is " ++ subject ++ ". " ++
  "Provide a healthy mix of question types that reflects the MOE syllabus: include several 'single-choice' multiple-choice questions, at least one 'multi-select' question, and at least two 'free-text' questions. " ++
  "For all multiple-choice or multi-select questions, include four options with clear wording. " ++
  "Do not include answer keys, hints, or explanations in the question paper itself. "

/-- Lines 207-214: the question-paper de-duplication instruction. -/
def paperDedupSection (prev : List Json) : String :=
  if prev.isEmpty then ""
  else
    "\nAvoid reusing any of the following questions that the student has already seen for this subject:\n" ++
    dedupLines prev ++
    "\nCreate fresh variations with different numbers, scenarios, or phrasing wherever possible."

/-- Lines 216-220: the final JSON formatting instruction. -/
def paperJsonInstruction : String :=
  "\nReturn a single JSON object with a key 'questions', which is an array of question objects. " ++
  "Each question object must contain: 'type' (one of 'single-choice', 'multi-select', or 'free-text'), " ++
  "a 'question' field containing the question text, and an 'options' array of four strings for choice-based questions."

/-- The full compiled question-paper prompt (lines 198-220). -/
def buildPaperPrompt (questionCount : Int) (classLevel subject : String)
    (prev : List Json) : String :=
  paperPromptBase questionCount classLevel subject ++ paperDedupSection prev ++
    paperJsonInstruction

/-- Lines 222-241: the question-paper `generation_config`. -/
def paperGenConfig : GenConfig where
  responseMimeType := "application/json"
  responseSchema := .obj
    [("type", .str "OBJECT"),
     ("properties", .obj
       [("questions", .obj
         [("type", .str "ARRAY"),
          ("items", .obj
            [("type", .str "OBJECT"),
             ("properties", .obj
               [("type", .obj [("type", .str "STRING")]),
                ("question", .obj [("type", .str "STRING")]),
                ("options", .obj
                  [("type", .str "ARRAY"),
                   ("items", .obj [("type", .str "STRING")])])]),
             ("required", .arr [.str "type", .str "question"])])])])]

/-- The successful question-paper handler outcome: the upstream call with
the compiled prompt for the effective question count. -/
def paperUpstream (d : Dict) (questionCount : Int) : HandlerResult :=
  .upstream
    (buildPaperPrompt questionCount (fieldStr d "classLevel")
      (fieldStr d "subject") (getPrevQuestions d))
    (some paperGenConfig)

/-- `_handle_question_paper` (lines 180-243), up to its `call_gemini_api`
call.  `data = data or {}` turns an absent body into the empty dict. -/
def handle_question_paper (od : Option Dict) : HandlerResult :=
  let d := od.getD []
  if !truthyGet d "classLevel" || !truthyGet d "subject" then
    .clientError "Missing 'classLevel' or 'subject'." 400
  else
    match pyInt ((alistGet d "questionCount").getD (.num 10)) with
    | none => .clientError "'questionCount' must be a number." 400
    | some n =>
      if n < 1 then .clientError "'questionCount' must be at least 1." 400
      else paperUpstream d (min n 15)

/-! ### generate-year-end-paper (src/api/index.py, `_handle_year_end_paper`,
lines 290-418, and `P3_YEAR_END_TOPICS`, lines 17-49) -/

/-- The fixed per-subject topic reference lists (lines 17-49). -/
def P3_YEAR_END_TOPICS : List (String × List String) :=
  [("English",
    ["Vocab MCQ",
     "Grammar MCQ",
     "Grammar Cloze",
     "Comprehension Cloze",
     "Sentence Combining",
     "Comprehension (Open-Ended)"]),
   ("Maths",
    ["Numbers to 10 000",
     "Addition and Subtraction",
     "Money",
     "Multiplication Tables of 6, 7, 8 and 9",
     "Multiplication and Division",
     "More Word Problems",
     "Bar Graphs",
     "Angles",
     "Perpendicular and Parallel Lines",
     "Fractions",
     "Length, Mass and Volume",
     "Area and Perimeter",
     "Time"]),
   ("Science",
    ["Diversity of Living Things",
     "Classification of Living Things",
     "Diversity of Materials",
     "Life cycles (Plants & Animals)",
     "Properties of Magnets",
     "Making and Using Magnets"])]

/-- Lines 300-301: lower-case, strip, and keep only alphanumeric characters
(`''.join(ch for ch in difficulty_input if ch.isalnum())`).  `Char.toLower`
and `Char.isAlphanum` agree with Python on ASCII input. -/
def normalizeDifficulty (s : String) : String :=
  String.mk (((pyStripL s.data).map Char.toLower).filter Char.isAlphanum)

/-- Lines 302-309: the fixed difficulty lookup table. -/
def difficulty_map : List (String × String) :=
  [("medium", "medium"),
   ("med", "medium"),
   ("mediumhard", "medium-hard"),
   ("mediumhardmix", "medium-hard"),
   ("mediumtohardmix", "medium-hard"),
   ("hard", "hard")]

/-- Line 310: `difficulty_map.get(normalized_difficulty, 'medium-hard')`. -/
def difficultyLevel (s : String) : String :=
  ((difficulty_map.find? (fun p => p.1 == normalizeDifficulty s)).map
    (fun p => p.2)).getD "medium-hard"

/-- Lines 312-323: the difficulty sentence for the chosen level. -/
def difficultySentence (level : String) : String :=
  if level == "medium" then
    "Ensure every question reflects medium difficulty suitable for confident Primary 3 pupils preparing for the year-end assessment."
  else if level == "hard" then
    "Ensure every question is hard difficulty, stretching capable Primary 3 pupils while staying within MOE expectations."
  else
    "Ensure the questions span medium to hard difficulty, mirroring the rigour of Primary 3 year-end examinations."

/-- Line 300: `(data.get('difficulty') or '')`.  A falsy value becomes the
empty string; a truthy non-string would make `.strip()` raise
(`none` = crash). -/
def getDifficultyString (d : Dict) : Option String :=
  match alistGet d "difficulty" with
  | some v => if pyTruthy v then (match v with | .str s => some s | _ => none)
              else some ""
  | none => some ""

/-- Line 332: `[topic for topic in topics if topic in valid_topic_list]`.
Only string elements can match a string allow-list. -/
def filteredTopics (topics : List Json) (valid : List String) : List String :=
  topics.filterMap (fun t =>
    match t with
    | .str ts => if ts ∈ valid then some ts else none
    | _ => none)

/-- One iteration of the `for subject, topics in subjects_input.items()`
loop (lines 328-334): skip non-list values, filter the topics against the
subject's reference list (`valid_topic_list` inlined), and store the
subject only when some topic survived. -/
def subjectEntryStep (acc : List (String × List String)) (p : String × Json) :
    List (String × List String) :=
  match p.2 with
  | .arr topics =>
    if (filteredTopics topics ((alistGet P3_YEAR_END_TOPICS p.1).getD [])).isEmpty
    then acc
    else dictSet acc p.1
      (filteredTopics topics ((alistGet P3_YEAR_END_TOPICS p.1).getD []))
  | _ => acc

/-- Lines 326-334: fold the caller-supplied entries into the `subjects`
dict, keeping per subject only topics on its reference list and dropping
subjects left with none. -/
def buildSubjectsBase (entries : Dict) : List (String × List String) :=
  entries.foldl subjectEntryStep []

/-- Lines 325-327: `subjects_input` contributes only when it is a dict. -/
def subjectsBase (subjectsInput : Json) : List (String × List String) :=
  match subjectsInput with
  | .obj entries => buildSubjectsBase entries
  | _ => []

/-- Lines 325-337: the resolved subject-to-topics mapping, after the
`setdefault` loop fills every reference subject that is still absent. -/
def resolveSubjects (subjectsInput : Json) : List (String × List String) :=
  P3_YEAR_END_TOPICS.foldl (fun acc p => dictSetdefault acc p.1 p.2)
    (subjectsBase subjectsInput)

/-- Lines 339-345: one line per ordered subject with its topic list. -/
def topicLines (subjects : List (String × List String)) : List String :=
  ["English", "Maths", "Science"].filterMap (fun s =>
    let tl := (alistGet subjects s).getD ((alistGet P3_YEAR_END_TOPICS s).getD [])
    if tl.isEmpty then none else some (s ++ ": " ++ strJoin ", " tl))

/-- Lines 347-373: the year-end paper prompt. -/
def yearEndPrompt (topicText difficultySent : String) : String :=
  "Act as an experienced Primary 3 teacher in Singapore preparing a year-end practice examination that follows the latest" ++
  "Singapore MOE syllabus. " ++
  "Create a complete Primary 3 practice paper with separate sections for English, Mathematics, and Science. " ++
  "Follow these requirements:\n" ++
  "1. Present the paper in three sections (English, Mathematics, Science) in that order with clear section titles.\n" ++
  "2. Use only these Primary 3 topics and tag every question with a 'topic' field that matches one of them exactly:\n" ++
  topicText ++ "\n" ++
  "3. " ++ difficultySent ++ "\n" ++
  "4. Provide an overall paper title and recommended total duration in minutes.\n" ++
  "5. English section (align with Paper 2 Language Use & Comprehension):\n" ++
  "   • Include section instructions suitable for Primary 3 students.\n" ++
  "   • Add 3 Vocabulary MCQ questions and 3 Grammar MCQ questions.\n" ++
  "   • Add 2 Grammar Cloze questions. Each Grammar Cloze question should contain a short passage with three blanks, each blank offering four MCQ options.\n" ++
  "   • Add 1 Comprehension Cloze passage with five blanks (treated as five questions) and four MCQ options for each blank.\n" ++
  "   • Add 2 Sentence Combining questions that are open-ended.\n" ++
  "   • Add 2 Comprehension open-ended questions tied to one short passage.\n" ++
  "6. Mathematics section:\n" ++
  "   • Provide section instructions, suggested time, and total marks.\n" ++
  "   • Include 10 questions: 4 MCQ, 4 short-answer, and 2 structured word problems that expect working steps.\n" ++
  "7. Science section:\n" ++
  "   • Provide section instructions, suggested time, and total marks.\n" ++
  "   • Include 8 questions: 4 MCQ and 4 open-ended questions focusing on explanation or application of concepts.\n" ++
  "8. For every question, include an answer and, where helpful, a short explanation aligned with MOE marking expectations.\n" ++
  "9. Number questions within each section starting from Q1.\n" ++
  "10. Return the paper strictly as JSON that follows the provided schema."

/-- Lines 375-416: the year-end `generation_config`. -/
def yearEndGenConfig : GenConfig where
  responseMimeType := "application/json"
  responseSchema := .obj
    [("type", .str "OBJECT"),
     ("properties", .obj
       [("paper_title", .obj [("type", .str "STRING")]),
        ("duration_minutes", .obj [("type", .str "INTEGER")]),
        ("sections", .obj
          [("type", .str "ARRAY"),
           ("items", .obj
             [("type", .str "OBJECT"),
              ("properties", .obj
                [("subject", .obj [("type", .str "STRING")]),
                 ("section_title", .obj [("type", .str "STRING")]),
                 ("instructions", .obj [("type", .str "STRING")]),
                 ("time_allocated_minutes", .obj [("type", .str "INTEGER")]),
                 ("total_marks", .obj [("type", .str "INTEGER")]),
                 ("questions", .obj
                   [("type", .str "ARRAY"),
                    ("items", .obj
                      [("type", .str "OBJECT"),
                       ("properties", .obj
                         [("number", .obj [("type", .str "STRING")]),
                          ("type", .obj [("type", .str "STRING")]),
                          ("prompt", .obj [("type", .str "STRING")]),
                          ("options", .obj
                            [("type", .str "ARRAY"),
                             ("items", .obj [("type", .str "STRING")])]),
                          ("topic", .obj [("type", .str "STRING")]),
                          ("marks", .obj [("type", .str "INTEGER")]),
                          ("answer", .obj [("type", .str "STRING")]),
                          ("answer_explanation", .obj [("type", .str "STRING")])]),
                       ("required", .arr
                         [.str "number", .str "type", .str "prompt",
                          .str "answer", .str "topic"])])])]),
              ("required", .arr
                [.str "subject", .str "section_title", .str "instructions",
                 .str "questions"])])])]),
     ("required", .arr [.str "paper_title", .str "sections"])]

/-- `_handle_year_end_paper` (lines 290-418), up to its `call_gemini_api`
call. -/
def handle_year_end_paper (od : Option Dict) : HandlerResult :=
  let d := od.getD []
  if !truthyGet d "classLevel" then
    .clientError "Missing 'classLevel' in request." 400
  else if !jsonEqStr (alistGet d "classLevel") "P3" then
    .clientError "Year-end paper generation is currently supported for Primary 3 only." 400
  else
    match getDifficultyString d with
    | none => .crash
    | some diffInput =>
      let level := difficultyLevel diffInput
      let subjects := resolveSubjects ((alistGet d "subjects").getD .null)
      .upstream
        (yearEndPrompt (strJoin "\n" (topicLines subjects))
          (difficultySentence level))
        (some yearEndGenConfig)

/-! ### evaluate (src/api/index.py, `_handle_evaluate`, lines 427-472) -/

/-- One loop body of lines 436-442: `str(data['answers'][i])` is read
first, then `q['type']` and `q['question']` (raw accesses that raise when
absent), then the block text is appended. -/
def evalQABlock (i : Nat) (q answer : Json) : Option String :=
  match q with
  | .obj qd =>
    match alistGet qd "type", alistGet qd "question" with
    | some tv, some qv =>
      some ("Question " ++ toString (i + 1) ++ " (type: " ++ pyStr tv ++ "): " ++
        pyStr qv ++ "\n" ++
        "Options: " ++ pyStr ((alistGet qd "options").getD (.str "N/A")) ++ "\n" ++
        "Student's Answer: " ++ pyStr answer ++ "\n\n")
    | _, _ => none
  | _ => none

/-- The `for i, q in enumerate(data['questions'])` loop of lines 436-442,
accumulating `questions_and_answers_text`.  Each step first performs the
positional access `data['answers'][i]`; `none` is an uncaught exception
(IndexError or KeyError). -/
def evalQAGo (qs : List Json) (answers : List Json) (i : Nat) : Option String :=
  match qs with
  | [] => some ""
  | q :: rest =>
    match answers[i]? with
    | none => none
    | some a =>
      match evalQABlock i q a with
      | none => none
      | some block =>
        match evalQAGo rest answers (i + 1) with
        | none => none
        | some tail => some (block ++ tail)

/-- The full questions-and-answers text (lines 435-442). -/
def buildQAText (qs answers : List Json) : Option String :=
  evalQAGo qs answers 0

/-- The evaluation prompt (lines 444-450). -/
def evalPrompt (questionCount : Nat) (qaText : String) : String :=
  "Act as a Primary School teacher in Singapore. " ++
  "Evaluate the following questions and student answers. For each one, provide whether it is correct, the correct answer (be concise), and a simple, encouraging one-sentence explanation. " ++
  "Here are the questions and answers:\n" ++ qaText ++
  "Return the response as a single JSON object with a key 'evaluation', which is an array of " ++
  toString questionCount ++ " objects. " ++
  "Each object must have three keys: 'is_correct' (boolean), 'correct_answer' (string), and 'explanation' (string)."

/-- Lines 452-471: the evaluate `generation_config`. -/
def evalGenConfig : GenConfig where
  responseMimeType := "application/json"
  responseSchema := .obj
    [("type", .str "OBJECT"),
     ("properties", .obj
       [("evaluation", .obj
         [("type", .str "ARRAY"),
          ("items", .obj
            [("type", .str "OBJECT"),
             ("properties", .obj
               [("is_correct", .obj [("type", .str "BOOLEAN")]),
                ("correct_answer", .obj [("type", .str "STRING")]),
                ("explanation", .obj [("type", .str "STRING")])]),
             ("required", .arr
               [.str "is_correct", .str "correct_answer",
                .str "explanation"])])])])]

/-- `_handle_evaluate` (lines 427-472), up to its `call_gemini_api` call.
The `questions` and `answers` payloads are modelled as JSON arrays when
present (non-sequence payloads, for which Python `len`/indexing would raise
or behave per-type, fall outside the claims' data model and are mapped to
the uncaught-exception result). -/
def handle_evaluate (od : Option Dict) : HandlerResult :=
  match od with
  | none => .clientError "Missing 'questions' or 'answers' in request." 400
  | some d =>
    if d.isEmpty then .clientError "Missing 'questions' or 'answers' in request." 400
    else
      match alistGet d "questions", alistGet d "answers" with
      | some (.arr qs), some answersV =>
        if qs.length == 0 then
          .clientError "At least one question is required for evaluation." 400
        else
          match answersV with
          | .arr answers =>
            match buildQAText qs answers with
            | none => .crash
            | some qaText =>
              .upstream (evalPrompt qs.length qaText) (some evalGenConfig)
          | _ => .crash
      | some _, some _ => .crash
      | _, _ => .clientError "Missing 'questions' or 'answers' in request." 400

/-! ### get-hint (src/api/index.py, `_handle_hint`, lines 481-490) -/

/-- `_handle_hint` (lines 481-490): a plain-text prompt, no
`generation_config`. -/
def handle_hint (od : Option Dict) : HandlerResult :=
  match od with
  | none => .clientError "Missing 'question' in request." 400
  | some d =>
    if d.isEmpty || (alistGet d "question").isNone then
      .clientError "Missing 'question' in request." 400
    else
      .upstream
        ("Provide a simple one-sentence hint for a Primary 3 student for the following question, but do not give away the answer: \"" ++
          pyStr ((alistGet d "question").getD .null) ++ "\"")
        none

/-! ### Routing and the upstream call boundary (src/api/index.py,
`_dispatch_to_handler` lines 246-259 and `call_gemini_api` lines 55-95) -/

/-- The five task handlers of the route map (lines 247-253). -/
inductive ApiTask where
  | generateQuiz : ApiTask
  | yearEnd : ApiTask
  | evaluate : ApiTask
  | getHint : ApiTask
  | questionPaper : ApiTask

/-- Dispatch to the handler for a task (lines 246-259). -/
def handleTask : ApiTask → Option Dict → HandlerResult
  | .generateQuiz => handle_generate_quiz
  | .yearEnd => handle_year_end_paper
  | .evaluate => handle_evaluate
  | .getHint => handle_hint
  | .questionPaper => handle_question_paper

/-- An HTTP response: a JSON body with a status code. -/
structure Response where
  body : Json
  status : Nat

/-- `_json_error` / `jsonify({"error": ...}), status` (line 51-53). -/
def jsonErrorResponse (message : String) (status : Nat) : Response :=
  ⟨.obj [("error", .str message)], status⟩

/-- Line 58: the missing-API-key failure of `call_gemini_api`. -/
def notConfiguredResponse : Response :=
  jsonErrorResponse "API key is not configured on the server." 500

/-- Lines 93-95: the generic `except Exception` failure. -/
def internalErrorResponse : Response :=
  jsonErrorResponse "An internal server error occurred." 500

/-- Lines 72-74: the missing-candidates failure. -/
def invalidUpstreamResponse : Response :=
  jsonErrorResponse "Received an invalid response from the AI service." 500

/-- Lines 82-85: the JSON-parse failure (a fixed body; the generated text
is only printed to the server log, never returned). -/
def parseFailResponse : Response :=
  jsonErrorResponse "Failed to parse LLM JSON response" 500

/-- Where a request stands when execution reaches the outbound-call site:
finished with a response, aborted by an exception the handlers do not
catch, or about to issue the single outbound call. -/
inductive PipeOutcome where
  | response (r : Response) : PipeOutcome
  | unhandledError : PipeOutcome
  | outboundCall (prompt : String) (config : Option GenConfig) : PipeOutcome

/-- A task request run up to the outbound-call boundary: the handler
validates and compiles its prompt, then `call_gemini_api` (lines 55-58)
fails closed when the stripped `GOOGLE_API_KEY` is empty, and otherwise
issues the outbound call.  `apiKey` is the already-stripped environment
value (line 14). -/
def runToCallBoundary (apiKey : String) (t : ApiTask) (od : Option Dict) :
    PipeOutcome :=
  match handleTask t od with
  | .clientError m s => .response (jsonErrorResponse m s)
  | .crash => .unhandledError
  | .upstream p cfg =>
    if apiKey = "" then .response notConfiguredResponse else .outboundCall p cfg

/-- `candidates[0]['content']['parts'][0]['text']`-style subscripts: list
indexing (line 76).  Python would also index into a string; every such
value fails the next dict subscript, so collapsing both to `none` preserves
the observable outcome (the generic exception branch). -/
def jsonIndex : Json → Nat → Option Json
  | .arr l, i => l.get? i
  | _, _ => none

/-- Dict subscript `v[k]` on a JSON value: raises unless `v` is an object
containing `k`. -/
def jsonField : Json → String → Option Json
  | .obj l, k => alistGet l k
  | _, _ => none

/-- Line 76: `gemini_response['candidates'][0]['content']['parts'][0]['text']`,
as a fallible extraction; `none` is the raised exception. -/
def extractContent (resp : Dict) : Option Json := do
  let cs ← alistGet resp "candidates"
  let c0 ← jsonIndex cs 0
  let content ← jsonField c0 "content"
  let parts ← jsonField content "parts"
  let p0 ← jsonIndex parts 0
  jsonField p0 "text"

/-- Line 78: `generation_config and generation_config.get("responseMimeType")
== "application/json"` (a `GenConfig` dict is non-empty, hence truthy). -/
def wantsJson : Option GenConfig → Bool
  | some c => c.responseMimeType == "application/json"
  | none => false

/-- Lines 70-95 of `call_gemini_api`: validate and normalize the upstream
response body.  The body is a JSON object (`response.json()` of the
generation service); `parseJson` stands for `json.loads`, the standard
library JSON reader, `none` being a `JSONDecodeError`.  All exceptions in
this region are caught by the generic branch (lines 93-95). -/
def processGeminiResponse (cfg : Option GenConfig)
    (parseJson : String → Option Json) (resp : Dict) : Response :=
  if !pyTruthy ((alistGet resp "candidates").getD .null) then
    invalidUpstreamResponse
  else
    match extractContent resp with
    | none => internalErrorResponse
    | some t =>
      if wantsJson cfg then
        match t with
        | .str s =>
          match parseJson s with
          | some j => ⟨j, 200⟩
          | none => parseFailResponse
        | _ => internalErrorResponse
      else ⟨.obj [("text", t)], 200⟩

/-! ### The main.py variant (src/main.py, `generate_content`, lines 25-71) -/

/-- Outcome of main.py's `generate_content` up to its outbound call: the
prompt value and the `generationConfig` value are forwarded as supplied. -/
inductive MainOutcome where
  | response (r : Response) : MainOutcome
  | outboundCall (promptValue : Json) (generationConfig : Json) : MainOutcome

/-- src/main.py `generate_content` (lines 25-50), up to the outbound call.
Here the API-key check (line 31) precedes body validation. -/
def main_generate_content (apiKey : String) (od : Option Dict) : MainOutcome :=
  if apiKey = "" then .response notConfiguredResponse
  else
    match od with
    | none => .response (jsonErrorResponse "Invalid request. 'prompt' is required." 400)
    | some d =>
      if d.isEmpty || (alistGet d "prompt").isNone then
        .response (jsonErrorResponse "Invalid request. 'prompt' is required." 400)
      else
        .outboundCall ((alistGet d "prompt").getD .null)
          ((alistGet d "generationConfig").getD (.obj []))

/-- A validation-passing English Vocab MCQ request, used as the C1 witness
input. -/
def c1RequestDict : Dict :=
  [("classLevel", Json.str "P3"), ("subject", Json.str "English"),
   ("topic", Json.str "Vocab MCQ"), ("difficulty", Json.str "easy")]

/-- The full English reference topic list, for the C4 witness. -/
def c4EnglishRef : List String :=
  ["Vocab MCQ", "Grammar MCQ", "Grammar Cloze", "Comprehension Cloze",
   "Sentence Combining", "Comprehension (Open-Ended)"]

/-- A year-end subjects payload with one invalid English topic and an
all-invalid Science list, for the C4 witness. -/
def c4SubjectsInput : Json :=
  .obj [("English", .arr [.str "Vocab MCQ", .str "Bogus Topic"]),
        ("Science", .arr [.str "Nope"])]

/-- A question item on which the evaluate loop body does not raise: a JSON
object carrying both 'type' and 'question'. -/
def evalItemOk (q : Json) : Bool :=
  match q with
  | .obj qd => (alistGet qd "type").isSome && (alistGet qd "question").isSome
  | _ => false

/-- A well-formed upstream body carrying the text "oops", for the C9
witness. -/
def c9GoodResp : Dict :=
  [("candidates", Json.arr
    [Json.obj [("content", Json.obj
      [("parts", Json.arr [Json.obj [("text", Json.str "oops")]])])]])]

/-! ### Substring infrastructure for prompt-content statements -/

/-- `Substr a b`: the text `a` occurs contiguously inside `b`. -/
def Substr (a b : String) : Prop :=
  a.data <:+: b.data

instance (a b : String) : Decidable (Substr a b) :=
  inferInstanceAs (Decidable (a.data <:+: b.data))

theorem str_data_append (a b : String) : (a ++ b).data = a.data ++ b.data :=
  rfl

theorem str_data_inj {a b : String} (h : a.data = b.data) : a = b := by
  cases a
  cases b
  exact congrArg String.mk h

theorem str_append_empty (s : String) : s ++ "" = s :=
  str_data_inj (by simp [str_data_append])

theorem substr_refl (a : String) : Substr a a :=
  ⟨[], [], by simp⟩

theorem substr_append_right {a b : String} (c : String) (h : Substr a b) :
    Substr a (b ++ c) := by
  obtain ⟨s, t, hst⟩ := h
  refine ⟨s, t ++ c.data, ?_⟩
  rw [str_data_append, ← hst]
  simp

theorem substr_append_left {a b : String} (c : String) (h : Substr a b) :
    Substr a (c ++ b) := by
  obtain ⟨s, t, hst⟩ := h
  refine ⟨c.data ++ s, t, ?_⟩
  rw [str_data_append, ← hst]
  simp

theorem substr_join_mem {f : String} (sep : String) {l : List String}
    (h : f ∈ l) : Substr f (strJoin sep l) := by
  induction l with
  | nil => cases h
  | cons x xs ih =>
    cases xs with
    | nil =>
      rw [List.mem_singleton] at h
      subst h
      exact substr_refl f
    | cons y ys =>
      rcases List.mem_cons.mp h with hfx | hfm
      · subst hfx
        exact substr_append_right _ (substr_append_right _ (substr_refl f))
      · exact substr_append_left _ (ih hfm)

/-! ### Claims C1, C2, C3 -/

/-- C1: for every generate-quiz request that passes field validation, the
handler calls upstream with the compiled prompt; when subject is "English"
and the topic is in the fixed MCQ-eligible set the compiled prompt requests
exactly 5 single-choice multiple-choice questions, each with four options
and exactly one correct answer, and contains no multi-select or free-text
request; for every other (subject, topic) combination the compiled prompt
requests exactly 2 single-choice, then 1 multi-select, then 2 free-text
questions, in that fixed order. -/
theorem C1_quiz_prompt_format (d : Dict) (hbody : d.isEmpty = false)
    (hvalid : missingFields d = []) :
    handle_generate_quiz (some d) =
      .upstream (buildQuizPrompt d) (some quizGenConfig) ∧
    (isEnglishMcq d =
      (jsonEqStr (alistGet d "subject") "English" &&
        jsonStrIn (alistGet d "topic")
          ["Vocab MCQ", "Grammar MCQ", "Grammar Cloze", "Comprehension Cloze"])) ∧
    (isEnglishMcq d = true →
      buildQuizPrompt d =
        "Act as a Primary School teacher in Singapore. " ++
        "Generate a quiz with exactly 5 'single-choice' multiple-choice questions for a " ++
        fieldStr d "classLevel" ++ " student. " ++
        "The subject is " ++ fieldStr d "subject" ++
        " and the specific topic is " ++ fieldStr d "topic" ++ ". " ++
        "The difficulty level should be " ++ fieldStr d "difficulty" ++ ". " ++
        "Each question must have four options with exactly one correct answer. " ++
        "Ensure the questions are aligned with the Singapore MOE syllabus. " ++
        quizTemplateSection d ++ quizImageSection d ++
        quizDedupSection (getPrevQuestions d) ++ quizJsonInstruction) ∧
    (isEnglishMcq d = false →
      buildQuizPrompt d =
        "Act as a Primary School teacher in Singapore. " ++
        "Generate a quiz with exactly 5 questions for a " ++
        fieldStr d "classLevel" ++ " student. " ++
        "The subject is " ++ fieldStr d "subject" ++
        " and the specific topic is " ++ fieldStr d "topic" ++ ". " ++
        "The difficulty level should be " ++ fieldStr d "difficulty" ++ ". " ++
        "The quiz must have this structure: " ++
        "1. Two 'single-choice' questions (select one correct answer from 4 options). " ++
        "2. One 'multi-select' question (select one or more correct answers from 4 options). " ++
        "3. Two 'free-text' questions (open-ended questions requiring a written answer). " ++
        "Ensure the questions are aligned with the Singapore MOE syllabus. " ++
        quizTemplateSection d ++ quizImageSection d ++
        quizDedupSection (getPrevQuestions d) ++ quizJsonInstruction) := by
  refine ⟨?_, rfl, ?_, ?_⟩
  · simp [handle_generate_quiz, hbody, hvalid]
  · intro h
    simp [buildQuizPrompt, quizBasePrompt, h, quizMcqPrompt]
  · intro h
    simp [buildQuizPrompt, quizBasePrompt, h, quizMixedPrompt]

/-- Witness for C1 at a concrete validation-passing request. -/
theorem C1_quiz_prompt_format_witness :
    missingFields c1RequestDict = [] ∧
    handle_generate_quiz (some c1RequestDict) =
      .upstream (buildQuizPrompt c1RequestDict) (some quizGenConfig) ∧
    isEnglishMcq c1RequestDict = true :=
  ⟨by decide, (C1_quiz_prompt_format c1RequestDict (by decide) (by decide)).1,
    by decide⟩

/-- C2 counterexample: the empty JSON object is a generate-quiz request in
which all four required fields are absent, yet the handler answers with the
generic "Request body must be JSON." message, which does not name the
missing field classLevel. -/
theorem C2_counterexample :
    handle_generate_quiz (some []) =
      .clientError "Request body must be JSON." 400 ∧
    ¬ Substr "classLevel" "Request body must be JSON." :=
  ⟨rfl, by decide⟩

/-- C2 (amended): for every generate-quiz request whose body is a non-empty
JSON object in which any of classLevel, subject, topic, difficulty is
absent or empty, the handler returns a 400 error naming every absent-or-
empty field among those four, and the upstream generation service is not
called; a body that is the empty JSON object, or on which `get_json` yields
`None`, instead gets the fixed message "Request body must be JSON.", which
names no fields, also without any upstream call. -/
theorem C2_missing_fields (d : Dict) (hbody : d.isEmpty = false)
    (hmiss : missingFields d ≠ []) :
    handle_generate_quiz (some d) =
      .clientError
        ("Missing or empty required fields: " ++ strJoin ", " (missingFields d))
        400 ∧
    (∀ f, f ∈ missingFields d ↔
      (f ∈ requiredQuizFields ∧ truthyGet d f = false)) ∧
    (∀ f ∈ missingFields d,
      Substr f
        ("Missing or empty required fields: " ++ strJoin ", " (missingFields d))) ∧
    (∀ p cfg, handle_generate_quiz (some d) ≠ .upstream p cfg) ∧
    handle_generate_quiz (some []) =
      .clientError "Request body must be JSON." 400 ∧
    handle_generate_quiz none =
      .clientError "Request body must be JSON." 400 := by
  have hne : (missingFields d).isEmpty = false := by
    cases hM : missingFields d with
    | nil => exact absurd hM hmiss
    | cons a as => simp
  refine ⟨?_, ?_, ?_, ?_, rfl, rfl⟩
  · simp [handle_generate_quiz, hbody, hne]
  · intro f
    simp [missingFields, List.mem_filter]
  · intro f hf
    exact substr_append_left _ (substr_join_mem ", " hf)
  · intro p cfg
    simp [handle_generate_quiz, hbody, hne]

/-- Witness for C2 (amended) at a request missing subject, topic and
difficulty. -/
theorem C2_missing_fields_witness :
    missingFields [("classLevel", Json.str "P3")] =
      ["subject", "topic", "difficulty"] ∧
    handle_generate_quiz (some [("classLevel", Json.str "P3")]) =
      .clientError
        ("Missing or empty required fields: " ++
          strJoin ", " (missingFields [("classLevel", Json.str "P3")]))
        400 :=
  ⟨by decide,
    (C2_missing_fields [("classLevel", Json.str "P3")] (by decide)
      (by decide)).1⟩

/-- C3: for every generate-question-paper request with truthy classLevel
and subject, an absent questionCount means an effective count of 10; a
value that does not parse as an integer is a 400 error; a parsed value
below 1 is a 400 error; a parsed value above 15 is silently clamped to 15;
any other parsed value is used as is. -/
theorem C3_question_count (d : Dict)
    (hcl : truthyGet d "classLevel" = true)
    (hsub : truthyGet d "subject" = true) :
    (alistGet d "questionCount" = none →
      handle_question_paper (some d) = paperUpstream d 10) ∧
    (∀ v, alistGet d "questionCount" = some v → pyInt v = none →
      handle_question_paper (some d) =
        .clientError "'questionCount' must be a number." 400) ∧
    (∀ v n, alistGet d "questionCount" = some v → pyInt v = some n → n < 1 →
      handle_question_paper (some d) =
        .clientError "'questionCount' must be at least 1." 400) ∧
    (∀ v n, alistGet d "questionCount" = some v → pyInt v = some n → 15 < n →
      handle_question_paper (some d) = paperUpstream d 15) ∧
    (∀ v n, alistGet d "questionCount" = some v → pyInt v = some n →
      1 ≤ n → n ≤ 15 →
      handle_question_paper (some d) = paperUpstream d n) := by
  refine ⟨?_, ?_, ?_, ?_, ?_⟩
  · intro h
    simp [handle_question_paper, hcl, hsub, h, pyInt]
  · intro v hv hp
    simp [handle_question_paper, hcl, hsub, hv, hp]
  · intro v n hv hp hn
    simp [handle_question_paper, hcl, hsub, hv, hp, hn]
  · intro v n hv hp hn
    have h1 : ¬ n < 1 := by omega
    have h2 : min n 15 = 15 := min_eq_right (le_of_lt hn)
    simp [handle_question_paper, hcl, hsub, hv, hp, h1, h2]
  · intro v n hv hp h1 h15
    have h1' : ¬ n < 1 := by omega
    have h2 : min n 15 = n := min_eq_left h15
    simp [handle_question_paper, hcl, hsub, hv, hp, h1', h2]

/-- Witness for C3: count 20 clamps to 15; count 0 is rejected; count "7"
parses to 7. -/
theorem C3_question_count_witness :
    handle_question_paper
        (some [("classLevel", Json.str "P3"), ("subject", Json.str "Maths"),
          ("questionCount", Json.str "20")]) =
      paperUpstream
        [("classLevel", Json.str "P3"), ("subject", Json.str "Maths"),
          ("questionCount", Json.str "20")] 15 ∧
    handle_question_paper
        (some [("classLevel", Json.str "P3"), ("subject", Json.str "Maths"),
          ("questionCount", Json.num 0)]) =
      .clientError "'questionCount' must be at least 1." 400 ∧
    handle_question_paper
        (some [("classLevel", Json.str "P3"), ("subject", Json.str "Maths"),
          ("questionCount", Json.str "abc")]) =
      .clientError "'questionCount' must be a number." 400 :=
  ⟨(C3_question_count _ (by decide) (by decide)).2.2.2.1 (Json.str "20") 20
      rfl (by decide) (by decide),
    (C3_question_count _ (by decide) (by decide)).2.2.1 (Json.num 0) 0
      rfl (by decide) (by decide),
    (C3_question_count _ (by decide) (by decide)).2.1 (Json.str "abc")
      rfl (by decide)⟩

/-! ### Claim C4: year-end topic resolution -/

theorem alistGet_cons {α : Type} (k' : String) (v : α) (d : List (String × α))
    (k : String) :
    alistGet ((k', v) :: d) k = if (k' == k) = true then some v else alistGet d k := by
  by_cases h : (k' == k) = true
  · simp [alistGet, List.find?, h]
  · simp only [Bool.not_eq_true] at h
    simp [alistGet, List.find?, h]

theorem alistGet_sd_ne {α : Type} (d : List (String × α)) (k : String) (v : α)
    (k' : String) (h : (k == k') = false) :
    alistGet (dictSetdefault d k v) k' = alistGet d k' := by
  unfold dictSetdefault
  cases hd : alistGet d k
  · rw [alistGet_cons, h]
    simp
  · rfl

theorem alistGet_sd_self {α : Type} (d : List (String × α)) (k : String) (v : α) :
    alistGet (dictSetdefault d k v) k = some ((alistGet d k).getD v) := by
  unfold dictSetdefault
  cases hd : alistGet d k
  · rw [alistGet_cons]
    simp
  · simp [hd]

theorem filteredTopics_subset (topics : List Json) (valid : List String) :
    ∀ t ∈ filteredTopics topics valid, t ∈ valid := by
  intro t ht
  rw [filteredTopics, List.mem_filterMap] at ht
  obtain ⟨j, hjmem, hjt⟩ := ht
  cases j with
  | str u =>
    by_cases hm : u ∈ valid
    · simp only [if_pos hm] at hjt
      exact (Option.some.inj hjt) ▸ hm
    · simp only [if_neg hm] at hjt
      cases hjt
  | null => cases hjt
  | bool b => cases hjt
  | num n => cases hjt
  | arr l => cases hjt
  | obj l => cases hjt

theorem step_get_ne (acc : List (String × List String)) (p : String × Json)
    (s : String) (h : (p.1 == s) = false) :
    alistGet (subjectEntryStep acc p) s = alistGet acc s := by
  obtain ⟨k, v⟩ := p
  cases v with
  | arr topics =>
    unfold subjectEntryStep
    by_cases hf :
        (filteredTopics topics ((alistGet P3_YEAR_END_TOPICS k).getD [])).isEmpty = true
    · simp [hf]
    · simp only [Bool.not_eq_true] at hf
      simp only [hf, Bool.false_eq_true, if_false, dictSet]
      rw [alistGet_cons]
      simp only at h
      rw [h]
      simp
  | null => rfl
  | bool b => rfl
  | num n => rfl
  | str u => rfl
  | obj l => rfl

theorem step_preserves (acc : List (String × List String)) (p : String × Json)
    (s : String) (ref : List String)
    (href : alistGet P3_YEAR_END_TOPICS s = some ref)
    (hi : ∀ v, alistGet acc s = some v → v ≠ [] ∧ ∀ t ∈ v, t ∈ ref) :
    ∀ v, alistGet (subjectEntryStep acc p) s = some v →
      v ≠ [] ∧ ∀ t ∈ v, t ∈ ref := by
  intro w hw
  obtain ⟨k, jv⟩ := p
  by_cases hp : (k == s) = true
  · have hps : k = s := beq_iff_eq.mp hp
    cases jv with
    | arr topics =>
      unfold subjectEntryStep at hw
      simp only at hw
      by_cases hf :
          (filteredTopics topics ((alistGet P3_YEAR_END_TOPICS k).getD [])).isEmpty = true
      · rw [if_pos hf] at hw
        exact hi w hw
      · rw [if_neg hf, dictSet, alistGet_cons, if_pos hp] at hw
        have hw' :
            filteredTopics topics ((alistGet P3_YEAR_END_TOPICS k).getD []) = w :=
          Option.some.inj hw
        have hvalid : (alistGet P3_YEAR_END_TOPICS k).getD [] = ref := by
          rw [hps, href]
          rfl
        constructor
        · intro hnil
          rw [hw', hnil] at hf
          exact hf rfl
        · intro t ht
          rw [← hw'] at ht
          rw [hvalid] at ht
          exact filteredTopics_subset topics ref t ht
    | null => exact hi w hw
    | bool b => exact hi w hw
    | num n => exact hi w hw
    | str u => exact hi w hw
    | obj l => exact hi w hw
  · have hp' : ((k, jv).1 == s) = false := by
      simp only
      cases hb : (k == s)
      · rfl
      · exact absurd hb hp
    rw [step_get_ne acc (k, jv) s hp'] at hw
    exact hi w hw

theorem foldl_step_preserves (entries : Dict)
    (acc : List (String × List String)) (s : String) (ref : List String)
    (href : alistGet P3_YEAR_END_TOPICS s = some ref)
    (hi : ∀ v, alistGet acc s = some v → v ≠ [] ∧ ∀ t ∈ v, t ∈ ref) :
    ∀ v, alistGet (entries.foldl subjectEntryStep acc) s = some v →
      v ≠ [] ∧ ∀ t ∈ v, t ∈ ref := by
  induction entries generalizing acc with
  | nil => exact hi
  | cons p rest ih =>
    rw [List.foldl_cons]
    exact ih _ (step_preserves acc p s ref href hi)

theorem foldl_step_notin (entries : Dict) (acc : List (String × List String))
    (s : String) (h : ∀ p ∈ entries, (p.1 == s) = false) :
    alistGet (entries.foldl subjectEntryStep acc) s = alistGet acc s := by
  induction entries generalizing acc with
  | nil => rfl
  | cons p rest ih =>
    rw [List.foldl_cons,
      ih _ (fun q hq => h q (List.mem_cons_of_mem p hq)),
      step_get_ne acc p s (h p (List.mem_cons_self p rest))]

theorem foldl_step_found (entries : Dict) (s : String) (ref : List String)
    (topics : List Json)
    (href : alistGet P3_YEAR_END_TOPICS s = some ref) :
    ∀ acc, alistGet acc s = none →
    (entries.map Prod.fst).Nodup →
    alistGet entries s = some (Json.arr topics) →
    alistGet (entries.foldl subjectEntryStep acc) s =
      (if (filteredTopics topics ref).isEmpty then none
       else some (filteredTopics topics ref)) := by
  induction entries with
  | nil =>
    intro acc _ _ hget
    simp [alistGet] at hget
  | cons p rest ih =>
    intro acc hacc hnd hget
    obtain ⟨k, v⟩ := p
    rw [List.map_cons, List.nodup_cons] at hnd
    by_cases hks : (k == s) = true
    · have hkseq : k = s := beq_iff_eq.mp hks
      rw [alistGet_cons, if_pos hks] at hget
      have hv : v = Json.arr topics := Option.some.inj hget
      have hrest : ∀ q ∈ rest, (q.1 == s) = false := by
        intro q hq
        rw [beq_eq_false_iff_ne]
        intro hqs
        have hmem : q.1 ∈ rest.map Prod.fst := List.mem_map_of_mem Prod.fst hq
        rw [hqs, ← hkseq] at hmem
        exact hnd.1 hmem
      rw [List.foldl_cons, foldl_step_notin rest _ s hrest]
      subst hv
      unfold subjectEntryStep
      simp only
      have hvalid : (alistGet P3_YEAR_END_TOPICS k).getD [] = ref := by
        rw [hkseq, href]
        rfl
      rw [hvalid]
      by_cases hf : (filteredTopics topics ref).isEmpty = true
      · rw [if_pos hf, if_pos hf]
        exact hacc
      · rw [if_neg hf, if_neg hf, dictSet, alistGet_cons, if_pos hks]
    · have hks' : (k == s) = false := by
        cases hb : (k == s)
        · rfl
        · exact absurd hb hks
      rw [alistGet_cons, hks'] at hget
      simp only [Bool.false_eq_true, if_false] at hget
      rw [List.foldl_cons]
      refine ih (subjectEntryStep acc (k, v)) ?_ hnd.2 hget
      rw [step_get_ne acc (k, v) s hks']
      exact hacc

theorem foldl_sd_notin {α : Type} (l : List (String × α)) (d : List (String × α))
    (s : String) (h : ∀ p ∈ l, (p.1 == s) = false) :
    alistGet (l.foldl (fun acc p => dictSetdefault acc p.1 p.2) d) s =
      alistGet d s := by
  induction l generalizing d with
  | nil => rfl
  | cons p rest ih =>
    rw [List.foldl_cons,
      ih _ (fun q hq => h q (List.mem_cons_of_mem p hq)),
      alistGet_sd_ne _ _ _ _ (h p (List.mem_cons_self p rest))]

theorem foldl_sd_lookup {α : Type} (l : List (String × α)) (s : String)
    (ref : α) :
    ∀ d : List (String × α), alistGet l s = some ref →
    (l.map Prod.fst).Nodup →
    alistGet (l.foldl (fun acc p => dictSetdefault acc p.1 p.2) d) s =
      some ((alistGet d s).getD ref) := by
  induction l with
  | nil =>
    intro d h _
    simp [alistGet] at h
  | cons p rest ih =>
    intro d h hnd
    obtain ⟨k, v⟩ := p
    rw [List.map_cons, List.nodup_cons] at hnd
    by_cases hks : (k == s) = true
    · have hkseq : k = s := beq_iff_eq.mp hks
      rw [alistGet_cons, if_pos hks] at h
      have hv : v = ref := Option.some.inj h
      have hrest : ∀ q ∈ rest, (q.1 == s) = false := by
        intro q hq
        rw [beq_eq_false_iff_ne]
        intro hqs
        have hmem : q.1 ∈ rest.map Prod.fst := List.mem_map_of_mem Prod.fst hq
        rw [hqs, ← hkseq] at hmem
        exact hnd.1 hmem
      rw [List.foldl_cons, foldl_sd_notin rest _ s hrest]
      subst hkseq hv
      exact alistGet_sd_self d k v
    · have hks' : (k == s) = false := by
        cases hb : (k == s)
        · rfl
        · exact absurd hb hks
      rw [alistGet_cons, hks'] at h
      simp only [Bool.false_eq_true, if_false] at h
      rw [List.foldl_cons, ih (dictSetdefault d k v) h hnd.2,
        alistGet_sd_ne _ _ _ _ hks']

theorem P3_ref_nonempty (s : String) (ref : List String)
    (h : alistGet P3_YEAR_END_TOPICS s = some ref) : ref ≠ [] := by
  have hmem : ref ∈ P3_YEAR_END_TOPICS.map Prod.snd := by
    unfold alistGet at h
    rw [Option.map_eq_some'] at h
    obtain ⟨p, hp, hpr⟩ := h
    exact hpr ▸ List.mem_map_of_mem Prod.snd (List.mem_of_find?_eq_some hp)
  intro hnil
  rw [hnil] at hmem
  revert hmem
  decide

theorem P3_keys_nodup : (P3_YEAR_END_TOPICS.map Prod.fst).Nodup := by
  decide

theorem subjectsBase_inv (input : Json) (s : String) (ref : List String)
    (href : alistGet P3_YEAR_END_TOPICS s = some ref) :
    ∀ v, alistGet (subjectsBase input) s = some v →
      v ≠ [] ∧ ∀ t ∈ v, t ∈ ref := by
  cases input with
  | obj entries =>
    exact foldl_step_preserves entries [] s ref href
      (by intro v hv; simp [alistGet] at hv)
  | null => intro v hv; simp [subjectsBase, alistGet] at hv
  | bool b => intro v hv; simp [subjectsBase, alistGet] at hv
  | num n => intro v hv; simp [subjectsBase, alistGet] at hv
  | str u => intro v hv; simp [subjectsBase, alistGet] at hv
  | arr l => intro v hv; simp [subjectsBase, alistGet] at hv

theorem resolve_lookup (input : Json) (s : String) (ref : List String)
    (href : alistGet P3_YEAR_END_TOPICS s = some ref) :
    alistGet (resolveSubjects input) s =
      some ((alistGet (subjectsBase input) s).getD ref) := by
  unfold resolveSubjects
  exact foldl_sd_lookup P3_YEAR_END_TOPICS s ref (subjectsBase input) href
    P3_keys_nodup

/-- C4: for every generate-year-end-paper subjects payload, every subject
of the fixed reference set resolves to a non-empty topic list that is a
subset of its reference list; a supplied topic outside the reference list
never survives; a subject absent from the payload, or one whose supplied
topics were all dropped, resolves to its full default topic list; a subject
with surviving topics resolves to exactly those survivors. -/
theorem C4_year_end_topic_resolution (input : Json) (s : String)
    (ref : List String)
    (href : alistGet P3_YEAR_END_TOPICS s = some ref) :
    ∃ ts, alistGet (resolveSubjects input) s = some ts ∧
      ts ≠ [] ∧ (∀ t ∈ ts, t ∈ ref) ∧ (∀ t, t ∉ ref → t ∉ ts) ∧
      (∀ entries, input = Json.obj entries →
        (alistGet entries s = none → ts = ref) ∧
        (∀ topics, (entries.map Prod.fst).Nodup →
          alistGet entries s = some (Json.arr topics) →
          (filteredTopics topics ref = [] → ts = ref) ∧
          (filteredTopics topics ref ≠ [] → ts = filteredTopics topics ref))) := by
  have hsub : ∀ t ∈ (alistGet (subjectsBase input) s).getD ref, t ∈ ref := by
    intro t ht
    cases hb : alistGet (subjectsBase input) s with
    | none =>
      rw [hb] at ht
      simpa using ht
    | some w =>
      rw [hb] at ht
      exact (subjectsBase_inv input s ref href w hb).2 t (by simpa using ht)
  have hne : (alistGet (subjectsBase input) s).getD ref ≠ [] := by
    cases hb : alistGet (subjectsBase input) s with
    | none =>
      simpa using P3_ref_nonempty s ref href
    | some w =>
      simpa using (subjectsBase_inv input s ref href w hb).1
  refine ⟨(alistGet (subjectsBase input) s).getD ref,
    resolve_lookup input s ref href, hne, hsub,
    fun t hnt hmem => hnt (hsub t hmem), ?_⟩
  intro entries hinput
  subst hinput
  have hsb : subjectsBase (Json.obj entries) = entries.foldl subjectEntryStep [] :=
    rfl
  constructor
  · intro habs
    have hfind : entries.find? (fun p => p.1 == s) = none :=
      Option.map_eq_none'.mp habs
    have hall := List.find?_eq_none.mp hfind
    have hfalse : ∀ p ∈ entries, (p.1 == s) = false := by
      intro p hp
      cases hb2 : (p.1 == s)
      · rfl
      · exact absurd hb2 (hall p hp)
    rw [hsb, foldl_step_notin entries [] s hfalse]
    rfl
  · intro topics hnd hget
    have hbase := foldl_step_found entries s ref topics href [] rfl hnd hget
    constructor
    · intro hfempty
      have hf : (filteredTopics topics ref).isEmpty = true := by
        rw [hfempty]
        rfl
      rw [hsb, hbase, if_pos hf]
      rfl
    · intro hfne
      have hf : ¬ (filteredTopics topics ref).isEmpty = true := by
        rw [List.isEmpty_iff]
        exact hfne
      rw [hsb, hbase, if_neg hf]
      rfl

/-- Witness for C4 at a concrete subjects payload. -/
theorem C4_year_end_topic_resolution_witness :
    alistGet P3_YEAR_END_TOPICS "English" = some c4EnglishRef ∧
    (∃ ts, alistGet (resolveSubjects c4SubjectsInput) "English" = some ts ∧
      ts ≠ [] ∧ ∀ t ∈ ts, t ∈ c4EnglishRef) :=
  ⟨rfl, by
    obtain ⟨ts, h1, h2, h3, -, -⟩ :=
      C4_year_end_topic_resolution c4SubjectsInput "English" c4EnglishRef rfl
    exact ⟨ts, h1, h2, h3⟩⟩

/-- C5: the year-end difficulty string is normalized by lower-casing and
removing non-alphanumeric characters, then mapped through the fixed lookup
table onto the three canonical levels, any unmapped normalized string
defaulting to medium-hard; "Med-Hard Mix!" and "mediumhardmix" resolve to
the same canonical level. -/
theorem C5_difficulty_normalization :
    (∀ s, difficultyLevel s = "medium" ∨ difficultyLevel s = "medium-hard" ∨
      difficultyLevel s = "hard") ∧
    (∀ s, difficulty_map.find? (fun p => p.1 == normalizeDifficulty s) = none →
      difficultyLevel s = "medium-hard") ∧
    difficultyLevel "Med-Hard Mix!" = difficultyLevel "mediumhardmix" ∧
    difficultyLevel "mediumhardmix" = "medium-hard" := by
  refine ⟨?_, ?_, by decide, by decide⟩
  · intro s
    unfold difficultyLevel
    cases hf : difficulty_map.find? (fun p => p.1 == normalizeDifficulty s) with
    | none => simp
    | some kv =>
      simp only [Option.map_some', Option.getD_some]
      have hmem := List.mem_of_find?_eq_some hf
      fin_cases hmem <;> simp
  · intro s hf
    unfold difficultyLevel
    rw [hf]
    rfl

/-- Witness for C5: an unmapped input falls back to medium-hard. -/
theorem C5_difficulty_normalization_witness :
    difficulty_map.find?
        (fun p => p.1 == normalizeDifficulty "something else") = none ∧
    difficultyLevel "something else" = "medium-hard" :=
  ⟨by decide, C5_difficulty_normalization.2.1 "something else" (by decide)⟩

/-- C6: for generate-quiz and generate-question-paper prompts, a non-empty
previous-question history makes the compiled prompt carry the
de-duplication instruction, enumerate every prior question text, and ask
for different patterns or fresh variations; an empty or absent history
leaves the prompt exactly equal to its concatenation without any
de-duplication section. -/
theorem C6_dedup_instruction (d : Dict) (n : Int) (cl subj : String) :
    (getPrevQuestions d ≠ [] →
      Substr "\nIMPORTANT: To ensure variety, do not generate any of the following questions that the student has already answered for this topic:\n"
        (buildQuizPrompt d) ∧
      (∀ q ∈ getPrevQuestions d, Substr ("- " ++ pyStr q) (buildQuizPrompt d)) ∧
      Substr "Also, try to create questions with different patterns and structures than the ones listed above."
        (buildQuizPrompt d)) ∧
    (getPrevQuestions d = [] →
      buildQuizPrompt d =
        quizBasePrompt d ++ quizTemplateSection d ++ quizImageSection d ++
          quizJsonInstruction) ∧
    (getPrevQuestions d ≠ [] →
      Substr "\nAvoid reusing any of the following questions that the student has already seen for this subject:\n"
        (buildPaperPrompt n cl subj (getPrevQuestions d)) ∧
      (∀ q ∈ getPrevQuestions d,
        Substr ("- " ++ pyStr q) (buildPaperPrompt n cl subj (getPrevQuestions d))) ∧
      Substr "Create fresh variations with different numbers, scenarios, or phrasing wherever possible."
        (buildPaperPrompt n cl subj (getPrevQuestions d))) ∧
    (getPrevQuestions d = [] →
      buildPaperPrompt n cl subj (getPrevQuestions d) =
        paperPromptBase n cl subj ++ paperJsonInstruction) := by
  have hquizD : ∀ x, Substr x (quizDedupSection (getPrevQuestions d)) →
      Substr x (buildQuizPrompt d) := by
    intro x hx
    unfold buildQuizPrompt
    exact substr_append_right _ (substr_append_left _ hx)
  have hpaperD : ∀ x, Substr x (paperDedupSection (getPrevQuestions d)) →
      Substr x (buildPaperPrompt n cl subj (getPrevQuestions d)) := by
    intro x hx
    unfold buildPaperPrompt
    exact substr_append_right _ (substr_append_left _ hx)
  refine ⟨?_, ?_, ?_, ?_⟩
  · intro hprev
    have hcond : ¬ ((getPrevQuestions d).isEmpty = true) := by
      rw [List.isEmpty_iff]
      exact hprev
    have hsec : quizDedupSection (getPrevQuestions d) =
        "\nIMPORTANT: To ensure variety, do not generate any of the following questions that the student has already answered for this topic:\n" ++
        dedupLines (getPrevQuestions d) ++
        "\nAlso, try to create questions with different patterns and structures than the ones listed above." := by
      unfold quizDedupSection
      rw [if_neg hcond]
    refine ⟨?_, ?_, ?_⟩
    · refine hquizD _ ?_
      rw [hsec]
      exact substr_append_right _ (substr_append_right _ (substr_refl _))
    · intro q hq
      refine hquizD _ ?_
      rw [hsec]
      exact substr_append_right _
        (substr_append_left _
          (substr_join_mem "\n"
            (List.mem_map_of_mem (fun q => "- " ++ pyStr q) hq)))
    · refine hquizD _ ?_
      rw [hsec]
      exact substr_append_left _ (by decide)
  · intro hprev
    unfold buildQuizPrompt
    rw [hprev]
    rw [show quizDedupSection [] = "" from rfl, str_append_empty]
  · intro hprev
    have hcond : ¬ ((getPrevQuestions d).isEmpty = true) := by
      rw [List.isEmpty_iff]
      exact hprev
    have hsec : paperDedupSection (getPrevQuestions d) =
        "\nAvoid reusing any of the following questions that the student has already seen for this subject:\n" ++
        dedupLines (getPrevQuestions d) ++
        "\nCreate fresh variations with different numbers, scenarios, or phrasing wherever possible." := by
      unfold paperDedupSection
      rw [if_neg hcond]
    refine ⟨?_, ?_, ?_⟩
    · refine hpaperD _ ?_
      rw [hsec]
      exact substr_append_right _ (substr_append_right _ (substr_refl _))
    · intro q hq
      refine hpaperD _ ?_
      rw [hsec]
      exact substr_append_right _
        (substr_append_left _
          (substr_join_mem "\n"
            (List.mem_map_of_mem (fun q => "- " ++ pyStr q) hq)))
    · refine hpaperD _ ?_
      rw [hsec]
      exact substr_append_left _ (by decide)
  · intro hprev
    unfold buildPaperPrompt
    rw [hprev]
    rw [show paperDedupSection [] = "" from rfl, str_append_empty]

/-- Witness for C6 at a request with one prior question, and at one with
none. -/
theorem C6_dedup_instruction_witness :
    Substr "- What is 2 + 3?"
      (buildQuizPrompt
        [("classLevel", Json.str "P3"), ("subject", Json.str "Maths"),
         ("topic", Json.str "Money"), ("difficulty", Json.str "easy"),
         ("previous_questions", Json.arr [Json.str "What is 2 + 3?"])]) ∧
    buildQuizPrompt
        [("classLevel", Json.str "P3"), ("subject", Json.str "Maths"),
         ("topic", Json.str "Money"), ("difficulty", Json.str "easy")] =
      quizBasePrompt
          [("classLevel", Json.str "P3"), ("subject", Json.str "Maths"),
           ("topic", Json.str "Money"), ("difficulty", Json.str "easy")] ++
        quizTemplateSection
          [("classLevel", Json.str "P3"), ("subject", Json.str "Maths"),
           ("topic", Json.str "Money"), ("difficulty", Json.str "easy")] ++
        quizImageSection
          [("classLevel", Json.str "P3"), ("subject", Json.str "Maths"),
           ("topic", Json.str "Money"), ("difficulty", Json.str "easy")] ++
        quizJsonInstruction :=
  ⟨((C6_dedup_instruction
        [("classLevel", Json.str "P3"), ("subject", Json.str "Maths"),
         ("topic", Json.str "Money"), ("difficulty", Json.str "easy"),
         ("previous_questions", Json.arr [Json.str "What is 2 + 3?"])]
        10 "P3" "Maths").1 (List.cons_ne_nil _ _)).2.1 (Json.str "What is 2 + 3?")
      (List.mem_cons_self _ _),
    (C6_dedup_instruction
        [("classLevel", Json.str "P3"), ("subject", Json.str "Maths"),
         ("topic", Json.str "Money"), ("difficulty", Json.str "easy")]
        10 "P3" "Maths").2.1 rfl⟩

/-! ### Claim C7: the evaluate loop's positional access into answers -/

theorem evalQAGo_short (answers : List Json) :
    ∀ qs i, qs ≠ [] → answers.length < i + qs.length →
      evalQAGo qs answers i = none := by
  intro qs
  induction qs with
  | nil => intro i h _; exact absurd rfl h
  | cons q rest ih =>
    intro i _ hlen
    cases hget : answers[i]? with
    | none => simp [evalQAGo, hget]
    | some a =>
      have hi : i < answers.length := by
        by_contra hcon
        rw [Nat.not_lt] at hcon
        rw [List.getElem?_eq_none hcon] at hget
        cases hget
      cases hblock : evalQABlock i q a with
      | none => simp [evalQAGo, hget, hblock]
      | some b =>
        have hrest : rest ≠ [] := by
          intro hr
          subst hr
          rw [List.length_cons, List.length_nil] at hlen
          omega
        have hlen' : answers.length < (i + 1) + rest.length := by
          rw [List.length_cons] at hlen
          omega
        simp [evalQAGo, hget, hblock, ih (i + 1) hrest hlen']

theorem evalQABlock_ok (i : Nat) (q a : Json) (hok : evalItemOk q = true) :
    ∃ s, evalQABlock i q a = some s := by
  cases q with
  | obj qd =>
    rw [evalItemOk, Bool.and_eq_true, Option.isSome_iff_exists,
      Option.isSome_iff_exists] at hok
    obtain ⟨⟨tv, htv⟩, ⟨qv, hqv⟩⟩ := hok
    rw [evalQABlock, htv, hqv]
    exact ⟨_, rfl⟩
  | null => cases hok
  | bool b => cases hok
  | num n => cases hok
  | str u => cases hok
  | arr l => cases hok

theorem evalQAGo_total (answers : List Json) :
    ∀ qs i, (∀ q ∈ qs, evalItemOk q = true) → i + qs.length ≤ answers.length →
      ∃ s, evalQAGo qs answers i = some s := by
  intro qs
  induction qs with
  | nil => intro i _ _; exact ⟨"", rfl⟩
  | cons q rest ih =>
    intro i hok hlen
    have hi : i < answers.length := by
      rw [List.length_cons] at hlen
      omega
    obtain ⟨a, hget⟩ : ∃ a, answers[i]? = some a := by
      rw [List.getElem?_eq_getElem hi]
      exact ⟨_, rfl⟩
    obtain ⟨b, hblock⟩ := evalQABlock_ok i q a (hok q (List.mem_cons_self q rest))
    obtain ⟨t, htail⟩ := ih (i + 1)
      (fun p hp => hok p (List.mem_cons_of_mem q hp))
      (by rw [List.length_cons] at hlen; omega)
    refine ⟨b ++ t, ?_⟩
    simp [evalQAGo, hget, hblock, htail]

/-- C7: the evaluate handler's loop reads `data['answers'][i]` without any
length-equality validation: with fewer answers than questions the handler
ends in the uncaught index error, never in a 400-style length-mismatch
response; with at least as many answers as questions every positional
access is in range and, for well-formed question items, the handler reaches
the upstream call. -/
theorem C7_evaluate_unguarded_answers (qs answers : List Json)
    (hne : qs ≠ []) :
    (answers.length < qs.length →
      handle_evaluate
          (some [("questions", Json.arr qs), ("answers", Json.arr answers)]) =
        .crash) ∧
    (qs.length ≤ answers.length →
      (∀ i, i < qs.length → answers[i]?.isSome = true) ∧
      ((∀ q ∈ qs, evalItemOk q = true) →
        ∃ qaText, buildQAText qs answers = some qaText ∧
          handle_evaluate
              (some [("questions", Json.arr qs), ("answers", Json.arr answers)]) =
            .upstream (evalPrompt qs.length qaText) (some evalGenConfig))) := by
  have hzero : (qs.length == 0) = false := by
    cases hq : qs with
    | nil => exact absurd hq hne
    | cons a as => rfl
  have hred : handle_evaluate
      (some [("questions", Json.arr qs), ("answers", Json.arr answers)]) =
      (if qs.length == 0 then
        HandlerResult.clientError "At least one question is required for evaluation." 400
      else
        match buildQAText qs answers with
        | none => HandlerResult.crash
        | some qaText =>
          HandlerResult.upstream (evalPrompt qs.length qaText)
            (some evalGenConfig)) := rfl
  constructor
  · intro hlen
    rw [hred, hzero]
    have hnone : buildQAText qs answers = none :=
      evalQAGo_short answers qs 0 hne (by omega)
    simp [hnone]
  · intro hlen
    constructor
    · intro i hi
      rw [List.getElem?_eq_getElem (lt_of_lt_of_le hi hlen)]
      rfl
    · intro hok
      obtain ⟨s, hs⟩ := evalQAGo_total answers qs 0 hok (by omega)
      refine ⟨s, hs, ?_⟩
      rw [hred, hzero]
      simp [buildQAText, hs]

/-- Witness for C7: one question with no answers crashes; one question with
one answer reaches the upstream call. -/
theorem C7_evaluate_unguarded_answers_witness :
    handle_evaluate
        (some [("questions",
            Json.arr [Json.obj [("type", Json.str "free-text"),
              ("question", Json.str "Name a magnet use.")]]),
          ("answers", Json.arr [])]) =
      .crash ∧
    (∃ qaText,
      buildQAText
          [Json.obj [("type", Json.str "free-text"),
            ("question", Json.str "Name a magnet use.")]]
          [Json.str "Fridge door"] = some qaText ∧
      handle_evaluate
          (some [("questions",
              Json.arr [Json.obj [("type", Json.str "free-text"),
                ("question", Json.str "Name a magnet use.")]]),
            ("answers", Json.arr [Json.str "Fridge door"])]) =
        .upstream (evalPrompt 1 qaText) (some evalGenConfig)) :=
  ⟨(C7_evaluate_unguarded_answers
      [Json.obj [("type", Json.str "free-text"),
        ("question", Json.str "Name a magnet use.")]] []
      (List.cons_ne_nil _ _)).1 (by decide),
    ((C7_evaluate_unguarded_answers
      [Json.obj [("type", Json.str "free-text"),
        ("question", Json.str "Name a magnet use.")]] [Json.str "Fridge door"]
      (List.cons_ne_nil _ _)).2 (by decide)).2
      (by
        intro q hq
        rw [List.mem_singleton] at hq
        subst hq
        decide)⟩

/-! ### Claims C8, C9, C10: the missing-key gate and the upstream-response
validator -/

/-- C8 counterexample: with the API key missing, a generate-quiz request
with an empty body gets the 400 "Request body must be JSON." response, not
the 500 "not configured" response the claim promises for every task
handler (validation runs before the key check in src/api/index.py). -/
theorem C8_counterexample :
    runToCallBoundary "" ApiTask.generateQuiz (some []) =
      .response (jsonErrorResponse "Request body must be JSON." 400) ∧
    "Request body must be JSON." ≠ "API key is not configured on the server." :=
  ⟨rfl, by decide⟩

/-- C8 (amended): with the API key missing, no outbound call is ever
attempted by any task handler; every handler whose validation passes (i.e.
that reaches `call_gemini_api`) returns the 500 "not configured" error,
while an invalid request still gets its usual validation error; in the
main.py variant the key check precedes validation, so there every request
gets the 500 "not configured" error and no outbound call. -/
theorem C8_missing_key_fails_closed :
    (∀ t od p cfg, runToCallBoundary "" t od ≠ .outboundCall p cfg) ∧
    (∀ t od p cfg, handleTask t od = .upstream p cfg →
      runToCallBoundary "" t od = .response notConfiguredResponse) ∧
    (∀ od, main_generate_content "" od = .response notConfiguredResponse) ∧
    (∀ od pv gcfg, main_generate_content "" od ≠ .outboundCall pv gcfg) := by
  refine ⟨?_, ?_, ?_, ?_⟩
  · intro t od p cfg
    unfold runToCallBoundary
    cases handleTask t od with
    | clientError m s => simp
    | crash => simp
    | upstream q c => simp
  · intro t od p cfg h
    unfold runToCallBoundary
    rw [h]
    simp
  · intro od
    rfl
  · intro od pv gcfg
    unfold main_generate_content
    simp

/-- Witness for C8 (amended): a valid get-hint request with the key missing
ends in the 500 "not configured" response. -/
theorem C8_missing_key_fails_closed_witness :
    runToCallBoundary "" ApiTask.getHint
        (some [("question", Json.str "Why do magnets attract iron?")]) =
      .response notConfiguredResponse :=
  C8_missing_key_fails_closed.2.1 ApiTask.getHint
    (some [("question", Json.str "Why do magnets attract iron?")]) _ _ rfl

theorem extractContent_truthy (resp : Dict) (t : Json)
    (h : extractContent resp = some t) :
    pyTruthy ((alistGet resp "candidates").getD .null) = true := by
  unfold extractContent at h
  cases hcs : alistGet resp "candidates" with
  | none => rw [hcs] at h; cases h
  | some cs =>
    rw [hcs] at h
    cases cs with
    | arr l =>
      cases hl : l with
      | nil => subst hl; simp [jsonIndex] at h
      | cons x xs => simp [hcs, pyTruthy, hl]
    | null => simp [jsonIndex] at h
    | bool b => simp [jsonIndex] at h
    | num n => simp [jsonIndex] at h
    | str u => simp [jsonIndex] at h
    | obj o => simp [jsonIndex] at h

/-- C9: if the upstream body has no candidates the validator answers the
500 "invalid response" error; if the content text was extracted but fails
to parse as JSON while a JSON schema was requested, it answers the fixed
500 "Failed to parse LLM JSON response" body, which does not embed the
generated text; if no schema was requested, the extracted text is returned
as the single-field object with key "text". -/
theorem C9_response_validation (cfg : Option GenConfig)
    (parseJson : String → Option Json) (resp : Dict) :
    (alistGet resp "candidates" = none →
      processGeminiResponse cfg parseJson resp = invalidUpstreamResponse) ∧
    (∀ s, extractContent resp = some (Json.str s) → wantsJson cfg = true →
      parseJson s = none →
      processGeminiResponse cfg parseJson resp = parseFailResponse) ∧
    parseFailResponse =
      jsonErrorResponse "Failed to parse LLM JSON response" 500 ∧
    (∀ t, extractContent resp = some t → wantsJson cfg = false →
      processGeminiResponse cfg parseJson resp = ⟨.obj [("text", t)], 200⟩) := by
  refine ⟨?_, ?_, rfl, ?_⟩
  · intro h
    unfold processGeminiResponse
    rw [h]
    simp [pyTruthy]
  · intro s hex hwants hparse
    unfold processGeminiResponse
    rw [extractContent_truthy resp (Json.str s) hex]
    simp only [Bool.not_true, Bool.false_eq_true, if_false]
    rw [hex, hwants]
    simp [hparse]
  · intro t hex hwants
    unfold processGeminiResponse
    rw [extractContent_truthy resp t hex]
    simp only [Bool.not_true, Bool.false_eq_true, if_false]
    rw [hex, hwants]
    simp

/-- Witness for C9 at concrete upstream bodies: an empty body, a body whose
text "oops" fails JSON parsing under a schema, and the same body without a
schema. -/
theorem C9_response_validation_witness :
    processGeminiResponse (some quizGenConfig) (fun _ => none) [] =
      invalidUpstreamResponse ∧
    processGeminiResponse (some quizGenConfig) (fun _ => none) c9GoodResp =
      parseFailResponse ∧
    processGeminiResponse none (fun _ => none) c9GoodResp =
      ⟨.obj [("text", Json.str "oops")], 200⟩ :=
  ⟨(C9_response_validation (some quizGenConfig) (fun _ => none) []).1 rfl,
    (C9_response_validation (some quizGenConfig) (fun _ => none)
      c9GoodResp).2.1 "oops" rfl rfl rfl,
    (C9_response_validation none (fun _ => none) c9GoodResp).2.2.2
      (Json.str "oops") rfl rfl⟩

/-- C10: an upstream body whose candidates list is present and non-empty
but whose first candidate lacks the content/parts/text nesting is caught by
the generic exception branch: the validator answers the 500 body with the
distinct generic message "An internal server error occurred.", not the
"invalid response" message. -/
theorem C10_malformed_candidate (cfg : Option GenConfig)
    (parseJson : String → Option Json) (resp : Dict) (l : List Json)
    (h1 : alistGet resp "candidates" = some (Json.arr l)) (h2 : l ≠ [])
    (h3 : extractContent resp = none) :
    processGeminiResponse cfg parseJson resp = internalErrorResponse ∧
    internalErrorResponse =
      jsonErrorResponse "An internal server error occurred." 500 ∧
    "An internal server error occurred." ≠
      "Received an invalid response from the AI service." := by
  refine ⟨?_, rfl, by decide⟩
  have htruthy : pyTruthy ((alistGet resp "candidates").getD .null) = true := by
    rw [h1]
    cases hl : l with
    | nil => exact absurd hl h2
    | cons x xs => simp [pyTruthy]
  unfold processGeminiResponse
  rw [htruthy]
  simp only [Bool.not_true, Bool.false_eq_true, if_false]
  rw [h3]

/-- Witness for C10 at a body whose sole candidate is the empty object. -/
theorem C10_malformed_candidate_witness :
    processGeminiResponse (some quizGenConfig) (fun _ => none)
        [("candidates", Json.arr [Json.obj []])] =
      internalErrorResponse :=
  (C10_malformed_candidate (some quizGenConfig) (fun _ => none)
    [("candidates", Json.arr [Json.obj []])] [Json.obj []] rfl
    (List.cons_ne_nil _ _) rfl).1
